import Mathlib

/-!
Shallow embedding of the Oculus HMD pipeline from `Oculus.h`:
render-target sizing (`computeSizes`), the per-eye viewport split
(`setEyeTexture`), orientation tracking (`getInput`, `isMoving`),
singleton construction with the debug-device fallback (`construct`),
and the per-frame render event order (`render`).
-/

/-- Integer pixel size, mirroring `ovrSizei` (`w`, `h`); texture and
window sizes are nonnegative, so components are `Nat` and `/` is the
C++ truncating integer division. -/
structure Sizei where
  w : Nat
  h : Nat
  deriving DecidableEq

/-- Three-component vector over the rationals, mirroring `glm::vec3`
(float components modelled by exact rationals). -/
structure Vec3 where
  x : ℚ
  y : ℚ
  z : ℚ
  deriving DecidableEq

/-- Component access `v[i]`, mirroring `glm::vec3::operator[]` for i < 3. -/
def Vec3.get (v : Vec3) : Nat → ℚ
  | 0 => v.x
  | 1 => v.y
  | _ => v.z

/-- Componentwise subtraction, mirroring `operator-` on `glm::vec3`. -/
def Vec3.sub (a b : Vec3) : Vec3 :=
  ⟨a.x - b.x, a.y - b.y, a.z - b.z⟩

/-- Render viewport, mirroring `ovrRecti`: `Pos.x`, `Pos.y`, `Size.w`,
`Size.h`. -/
structure Viewport where
  x : Nat
  y : Nat
  w : Nat
  h : Nat
  deriving DecidableEq

/-- `Oculus::setEyeTexture` (Oculus.h:402-417): the left eye viewport is
at (0,0) with size (`textureSize_.w/2`, `textureSize_.h`); the right eye
is copied from the left (`eyeTexture_[1] = eyeTexture_[0]`) and only its
x-position is changed to `(textureSize_.w + 1) / 2`. -/
def setEyeTexture (textureSize : Sizei) : Viewport × Viewport :=
  let left : Viewport :=
    { x := 0, y := 0, w := textureSize.w / 2, h := textureSize.h }
  let right : Viewport := { left with x := (textureSize.w + 1) / 2 }
  (left, right)

/-- `Oculus::computeSizes` (Oculus.h:425-437): the combined texture width
is the sum of the per-eye recommended widths and its height is the larger
of the per-eye recommended heights (the ternary
`l.h > r.h ? l.h : r.h`). -/
def computeSizes (textureSizeLeft textureSizeRight : Sizei) : Sizei :=
  { w := textureSizeLeft.w + textureSizeRight.w
  , h := if textureSizeLeft.h > textureSizeRight.h then textureSizeLeft.h
         else textureSizeRight.h }

/-- The accumulator loop of `Oculus::isMoving` (Oculus.h:212-220):
`res` is seeded at `false` and the loop runs
`res = res && Utils::isEqual(angles_[i], dAngles_[i])` for i = 0, 1, 2.
`Utils::isEqual` lives outside this file, so the comparison function is a
parameter; the result does not depend on it. -/
def isMovingAcc (isEqual : ℚ → ℚ → Bool) (angles dAngles : Vec3) : Bool :=
  (List.range 3).foldl
    (fun res i => res && isEqual (angles.get i) (dAngles.get i)) false

/-- `Oculus::isMoving` (Oculus.h:212-220) returns the negation `!res` of
the accumulator. -/
def isMoving (isEqual : ℚ → ℚ → Bool) (angles dAngles : Vec3) : Bool :=
  !(isMovingAcc isEqual angles dAngles)

/-- The instance state of `Oculus` relevant to tracking, the debug-device
flag and sizing: `angles_`, `dAngles_`, `usingDebugHmd_`, `textureSize_`. -/
structure OculusState where
  angles : Vec3
  dAngles : Vec3
  usingDebugHmd : Bool
  textureSize : Sizei
  deriving DecidableEq

/-- One sensor sample: the status flags tested by `getInput` and the Euler
angles extracted from the predicted orientation quaternion by
`quat.GetEulerAngles<Y,X,Z>`. -/
structure SensorSample where
  orientationTracked : Bool
  positionTracked : Bool
  eulerAngles : Vec3
  deriving DecidableEq

/-- `Oculus::getInput` (Oculus.h:238-272): saves `oldAngles = angles_`;
when the status flags contain orientation or position tracking, stores the
sampled Euler angles into `angles_` and `angles_ - oldAngles` into
`dAngles_`; otherwise only logs and leaves the state unchanged. -/
def getInput (s : OculusState) (sample : SensorSample) : OculusState :=
  let oldAngles := s.angles
  if sample.orientationTracked || sample.positionTracked then
    { s with angles := sample.eulerAngles
           , dAngles := Vec3.sub sample.eulerAngles oldAngles }
  else
    s

/-- `Oculus::setAngles` (Oculus.h:227-230): assigns `angles_`. -/
def setAngles (s : OculusState) (angles : Vec3) : OculusState :=
  { s with angles := angles }

/-- `Oculus::isUsingDebugHmd` (Oculus.h:201-204). -/
def isUsingDebugHmd (s : OculusState) : Bool :=
  s.usingDebugHmd

/-- `Oculus::Oculus` (Oculus.h:67-126). `alreadyCreated` is the static
singleton flag: `assert(!alreadyCreated)` fires at entry when it is set,
and it is set to `true` at the end of a successful construction.
`realHmdOk` is whether `ovrHmd_Create(0)` yields a device; when it does
not, `ovrHmd_CreateDebug(ovrHmd_DK1)` is tried, `usingDebugHmd_` is set,
and `assert(hmd_)` fires when that fails too (`debugHmdOk` false).
Returns the constructed state paired with the new value of the static
flag, or `none` when an assertion fires. -/
def construct (alreadyCreated realHmdOk debugHmdOk : Bool)
    (textureSizeLeft textureSizeRight : Sizei) :
    Option (OculusState × Bool) :=
  if alreadyCreated then
    none
  else if realHmdOk then
    some ({ angles := ⟨0, 0, 0⟩, dAngles := ⟨0, 0, 0⟩
          , usingDebugHmd := false
          , textureSize := computeSizes textureSizeLeft textureSizeRight },
          true)
  else if debugHmdOk then
    some ({ angles := ⟨0, 0, 0⟩, dAngles := ⟨0, 0, 0⟩
          , usingDebugHmd := true
          , textureSize := computeSizes textureSizeLeft textureSizeRight },
          true)
  else
    none

/-- The two eyes, mirroring `ovrEyeType`. -/
inductive Eye where
  | left
  | right
  deriving DecidableEq

/-- Observable steps of `Oculus::render` (Oculus.h:149-195). -/
inductive RenderEvent where
  | beginFrame
  | bindFramebuffer
  | clear
  | sampleInput
  | beginEyeRender (e : Eye)
  | setViewport (e : Eye)
  | sceneRender (e : Eye)
  | endEyeRender (e : Eye)
  | endFrame
  deriving DecidableEq

/-- Body of one iteration of the per-eye loop in `Oculus::render`:
`ovrHmd_BeginEyeRender`, `glViewport`, view/projection computation and
`scene_.render`, `ovrHmd_EndEyeRender`. -/
def eyePass (e : Eye) : List RenderEvent :=
  [RenderEvent.beginEyeRender e, RenderEvent.setViewport e,
   RenderEvent.sceneRender e, RenderEvent.endEyeRender e]

/-- Event trace of `Oculus::render` (Oculus.h:149-195): `ovrHmd_BeginFrame`,
bind the FBO, clear, `getInput()`, then the loop over
`eyeIndex < ovrEye_Count` taking `eye = hmdDesc_.EyeRenderOrder[eyeIndex]`,
and finally `ovrHmd_EndFrame`. -/
def render (order : Fin 2 → Eye) : List RenderEvent :=
  [RenderEvent.beginFrame, RenderEvent.bindFramebuffer,
   RenderEvent.clear, RenderEvent.sampleInput]
    ++ ([0, 1] : List (Fin 2)).foldl
        (fun acc i => acc ++ eyePass (order i)) []
    ++ [RenderEvent.endFrame]

/-- C1 counterexample: at combined size (1281, 800) the left and right
viewport widths sum to 1280, not 1281 — both widths are 640, so the
claimed gap-free 640/641 split at odd widths does not hold. -/
theorem C1_counterexample :
    ¬ ((setEyeTexture ⟨1281, 800⟩).1.w + (setEyeTexture ⟨1281, 800⟩).2.w
        = 1281) := by
  decide

/-- C1 (amended): for every combined size (w, h) the left viewport is
{0, 0, w/2, h} and the right viewport is {(w+1)/2, 0, w/2, h}, i.e. the
right eye starts at the ceiling of w/2 but keeps the left eye's width
w/2; the viewports never overlap, and the two widths sum to w minus
(w mod 2): an exact partition for even w, and a one-column gap at the
midpoint for odd w. -/
theorem C1_amended_viewports (w h : Nat) :
    (setEyeTexture ⟨w, h⟩).1 = ⟨0, 0, w / 2, h⟩ ∧
    (setEyeTexture ⟨w, h⟩).2 = ⟨(w + 1) / 2, 0, w / 2, h⟩ ∧
    (setEyeTexture ⟨w, h⟩).2.x = w - w / 2 ∧
    (setEyeTexture ⟨w, h⟩).1.w + (setEyeTexture ⟨w, h⟩).2.w + w % 2 = w ∧
    (setEyeTexture ⟨w, h⟩).1.x + (setEyeTexture ⟨w, h⟩).1.w
      ≤ (setEyeTexture ⟨w, h⟩).2.x := by
  refine ⟨rfl, rfl, ?_, ?_, ?_⟩ <;> simp [setEyeTexture] <;> omega

/-- C2 counterexample: with exact rational equality as the comparison
function and angles equal to dAngles (all zero), `isMoving` returns
`true`, not `false` — refuting the claim that it returns false regardless
of input and can never report motion. -/
theorem C2_counterexample :
    isMoving (fun a b => decide (a = b)) ⟨0, 0, 0⟩ ⟨0, 0, 0⟩ = true := rfl

/-- C2 (amended): the AND accumulator seeded at `false` does collapse to
`false` for every comparison function and every state, but the function
returns the negation of the accumulator, so `isMoving` returns `true`
regardless of input: it always reports motion and can never report
stillness. -/
theorem C2_amended_isMoving (isEqual : ℚ → ℚ → Bool)
    (angles dAngles : Vec3) :
    isMoving isEqual angles dAngles = true := rfl

/-- C3: for all device-reported per-eye texture sizes, `computeSizes`
returns exactly (wL + wR, max hL hR). -/
theorem C3_computeSizes (wL hL wR hR : Nat) :
    computeSizes ⟨wL, hL⟩ ⟨wR, hR⟩ = ⟨wL + wR, max hL hR⟩ := by
  simp only [computeSizes, Sizei.mk.injEq, true_and]
  split <;> omega

/-- C4: when the status flags indicate orientation or position tracking,
`getInput` sets the delta angles to the componentwise difference of the
sampled angles and the previous angles, and stores the sampled angles as
the new current angles. -/
theorem C4_getInput_tracked (s : OculusState) (sample : SensorSample)
    (h : (sample.orientationTracked || sample.positionTracked) = true) :
    (getInput s sample).angles = sample.eulerAngles ∧
    (getInput s sample).dAngles = Vec3.sub sample.eulerAngles s.angles := by
  simp [getInput, h]

/-- C4 witness: previous angles (0.1, 0.2, 0.3) and sampled angles
(0.15, 0.18, 0.3) yield exactly delta (0.05, -0.02, 0). -/
theorem C4_witness :
    (getInput ⟨⟨1/10, 2/10, 3/10⟩, ⟨0, 0, 0⟩, false, ⟨1280, 800⟩⟩
        ⟨true, false, ⟨15/100, 18/100, 3/10⟩⟩).angles
      = ⟨15/100, 18/100, 3/10⟩ ∧
    (getInput ⟨⟨1/10, 2/10, 3/10⟩, ⟨0, 0, 0⟩, false, ⟨1280, 800⟩⟩
        ⟨true, false, ⟨15/100, 18/100, 3/10⟩⟩).dAngles
      = ⟨1/20, -(1/50), 0⟩ := by
  have h := C4_getInput_tracked
    ⟨⟨1/10, 2/10, 3/10⟩, ⟨0, 0, 0⟩, false, ⟨1280, 800⟩⟩
    ⟨true, false, ⟨15/100, 18/100, 3/10⟩⟩ rfl
  refine ⟨h.1, h.2.trans ?_⟩
  simp only [Vec3.sub, Vec3.mk.injEq]
  norm_num

/-- C5: any successful construction sets the static singleton flag to
`true`, and a construction attempted while the flag is set returns `none`
(the `assert(!alreadyCreated)` fires), whatever the device-creation
outcomes and texture sizes of either attempt. -/
theorem C5_singleton (f realHmdOk debugHmdOk : Bool) (l r : Sizei)
    (st : OculusState) (fNew : Bool)
    (h : construct f realHmdOk debugHmdOk l r = some (st, fNew))
    (realHmdOk2 debugHmdOk2 : Bool) (l2 r2 : Sizei) :
    construct fNew realHmdOk2 debugHmdOk2 l2 r2 = none := by
  cases fNew with
  | true => rfl
  | false =>
    exfalso
    cases f <;> cases realHmdOk <;> cases debugHmdOk <;>
      simp [construct] at h

/-- C5 witness: after a successful construction (flag was clear, real
device created), a second construction with the flag set fails. -/
theorem C5_witness :
    construct true true true ⟨640, 800⟩ ⟨640, 800⟩ = none :=
  C5_singleton false true true ⟨640, 800⟩ ⟨640, 800⟩
    { angles := ⟨0, 0, 0⟩, dAngles := ⟨0, 0, 0⟩, usingDebugHmd := false
    , textureSize := computeSizes ⟨640, 800⟩ ⟨640, 800⟩ } true rfl
    true true ⟨640, 800⟩ ⟨640, 800⟩

/-- C6: from a clear singleton flag, when real-device creation succeeds
the constructed state reports `isUsingDebugHmd = false` (whatever the
debug outcome would have been); when real creation fails and debug
creation succeeds it reports `isUsingDebugHmd = true`; when both fail,
construction fails (`assert(hmd_)` fires). -/
theorem C6_debug_fallback (debugHmdOk : Bool) (l r : Sizei) :
    Option.map (fun p => isUsingDebugHmd p.1)
        (construct false true debugHmdOk l r) = some false ∧
    Option.map (fun p => isUsingDebugHmd p.1)
        (construct false false true l r) = some true ∧
    construct false false false l r = none :=
  ⟨rfl, rfl, rfl⟩

/-- C7: when the status flags indicate neither orientation nor position
tracking, `getInput` leaves the whole state unchanged — current angles
and delta angles keep their stale values — and completes normally. -/
theorem C7_getInput_untracked (s : OculusState) (sample : SensorSample)
    (h1 : sample.orientationTracked = false)
    (h2 : sample.positionTracked = false) :
    getInput s sample = s := by
  simp [getInput, h1, h2]

/-- C7 witness: a concrete untracked sample leaves a concrete state
unchanged. -/
theorem C7_witness :
    getInput ⟨⟨1, 2, 3⟩, ⟨4, 5, 6⟩, true, ⟨1280, 800⟩⟩
        ⟨false, false, ⟨7, 8, 9⟩⟩
      = ⟨⟨1, 2, 3⟩, ⟨4, 5, 6⟩, true, ⟨1280, 800⟩⟩ :=
  C7_getInput_untracked _ _ rfl rfl

/-- Helper for C8: no iteration of the per-eye loop emits an EndFrame. -/
theorem eyePass_count_endFrame (e : Eye) :
    (eyePass e).count RenderEvent.endFrame = 0 := by
  cases e <;> rfl

/-- C8: for every runtime-declared eye render order, the trace of
`render` is exactly BeginFrame, bind, clear, one input sample, then the
full eye pass (BeginEyeRender, viewport, scene render, EndEyeRender) for
the first-ordered eye followed by the second-ordered eye, then EndFrame;
EndFrame occurs exactly once and is the last event. -/
theorem C8_render_order (order : Fin 2 → Eye) :
    render order
      = [RenderEvent.beginFrame, RenderEvent.bindFramebuffer,
         RenderEvent.clear, RenderEvent.sampleInput]
          ++ (eyePass (order 0) ++ eyePass (order 1))
          ++ [RenderEvent.endFrame] ∧
    (render order).count RenderEvent.endFrame = 1 ∧
    (render order).getLast? = some RenderEvent.endFrame := by
  refine ⟨?_, ?_, ?_⟩
  · simp [render]
  · simp [render, List.count_append, List.count_cons,
      eyePass_count_endFrame]
  · unfold render
    rw [List.getLast?_concat]

/-- C9: for every comparison function and every state of the current and
delta angles, the AND accumulator seeded at `false` stays `false` after
the three per-axis equality tests, and `isMoving` returns its negation,
hence `true`. -/
theorem C9_isMoving_always_true (isEqual : ℚ → ℚ → Bool)
    (angles dAngles : Vec3) :
    isMovingAcc isEqual angles dAngles = false ∧
    isMoving isEqual angles dAngles
      = !(isMovingAcc isEqual angles dAngles) ∧
    isMoving isEqual angles dAngles = true :=
  ⟨rfl, rfl, rfl⟩

/-- C10: `setAngles` stores its argument into the current angles and
leaves every other field — in particular the delta angles — unchanged,
so the relation delta = current − previous is not re-established. -/
theorem C10_setAngles_frame (s : OculusState) (a : Vec3) :
    (setAngles s a).angles = a ∧
    (setAngles s a).dAngles = s.dAngles ∧
    (setAngles s a).usingDebugHmd = s.usingDebugHmd ∧
    (setAngles s a).textureSize = s.textureSize :=
  ⟨rfl, rfl, rfl, rfl⟩
